import Mathlib

/-!
# Verification of the NetworkInfoApp collection pipeline

Shallow embedding of `src/App.js` (the `App` component): the collection
pipeline (`requestPermissions`, `fetchNetworkInfo`, `fetchLocation`),
the persistence operations (`saveData`, `fetchSavedData`), and the
nearby-network listing (`fetchAvailableNetworks`).

Modelling conventions:
* React `useState` fields become the fields of `AppState`; the `useState`
  initializers give `initialAppState`.
* Each awaited provider call is resolved by an `Env` record: `some v`
  means the promise resolved with `v`, `none` means it threw (so the
  enclosing `try` jumps to its `catch`).
* `Toast.show` messages are accumulated in `AppState.toasts`; the catch
  handlers' toasts are the program's only error reporting, so they model
  the session's error slot.
* Every external call (permission prompt, WifiManager, Location, Firestore
  `addDoc`/`getDocs`) is logged in `World.calls`, so "X is never invoked"
  claims are statements about the call trace.
* The Firestore collection is modelled from the spec (ObservationStore,
  §4.4): `addDoc` appends a document, `getDocs` returns all documents.
* JavaScript numbers that the program merely carries (signal level in dBm,
  latitude/longitude) are modelled as `Int`: the program never does
  arithmetic on them.
* `new Date().toISOString()` is modelled by `toISOString : Nat → String`
  on epoch milliseconds, implementing the ECMAScript ISO-8601 rendering
  (proleptic Gregorian, UTC) for times at or after the epoch.
-/

/-- The `wifiDetails` state object. It starts as `{}` and only ever gains
an `ssid` key via `setWifiDetails(prev => ({ ...prev, ssid }))`. -/
structure WifiDetails where
  ssid : Option String
deriving DecidableEq, Repr

/-- The coordinate pair extracted from `loc.coords` (floats in JS, carried
opaquely here). -/
structure Coords where
  latitude : Int
  longitude : Int
deriving DecidableEq, Repr

/-- A document written to / read from the `networkDetails` collection,
exactly the object literal built in `saveData` (src/App.js lines 81-89). -/
structure SavedRecord where
  wifiDetails : WifiDetails
  signalStrength : Int
  location : Coords
  timestamp : String
deriving DecidableEq, Repr

/-- An entry of `WifiManager.loadWifiList()` (fields `SSID`, `level`). -/
structure NetworkEntry where
  networkSSID : String
  level : Int
deriving DecidableEq, Repr

/-- The component state: one field per `useState` hook, plus the log of
`Toast.show` messages. -/
structure AppState where
  wifiDetails : WifiDetails
  signalStrength : Option Int
  location : Option Coords
  savedData : List SavedRecord
  availableNetworks : List NetworkEntry
  toasts : List String
deriving DecidableEq, Repr

/-- The `useState` initializers: `{}`, `null`, `null`, `[]`, `[]`. -/
def initialAppState : AppState :=
  { wifiDetails := { ssid := none }
    signalStrength := none
    location := none
    savedData := []
    availableNetworks := []
    toasts := [] }

/-- Modelled from the spec: the ObservationStore (§4.4), i.e. the remote
`networkDetails` Firestore collection, which is not part of this
repository's source. `create`/`addDoc` appends; `listAll`/`getDocs`
returns all documents. -/
structure Store where
  docs : List SavedRecord
deriving DecidableEq, Repr

/-- External calls made by the pipeline, in program order. -/
inductive Call where
  | requestPermission
  | getCurrentWifiSSID
  | connectionStatus
  | getCurrentSignalStrength
  | getCurrentPosition
  | loadWifiList
  | addDoc
  | getDocs
deriving DecidableEq, Repr

/-- The whole world one run acts on: component state, remote store, and
the trace of external calls. -/
structure World where
  app : AppState
  store : Store
  calls : List Call
deriving DecidableEq, Repr

/-- Outcome of every awaited external call during one run: `some v` is a
resolved promise, `none` a rejected one (caught by the enclosing
`try`/`catch`). `now` is the epoch-millisecond clock read by
`new Date()` — the only place the program reads a clock is `saveData`. -/
structure Env where
  permissionStatus : String
  ssidResult : Option String
  connectionResult : Option Bool
  levelResult : Option Int
  positionResult : Option Coords
  wifiListResult : Option (List NetworkEntry)
  addDocFails : Bool
  getDocsFails : Bool
  now : Nat
deriving DecidableEq, Repr

/-- Log an external call. -/
def emit (w : World) (c : Call) : World :=
  { w with calls := w.calls ++ [c] }

/-- `Toast.show(m)`. -/
def toast (w : World) (m : String) : World :=
  { w with app := { w.app with toasts := w.app.toasts ++ [m] } }

/-- Zero-padded decimal rendering. -/
def padNum (width n : Nat) : String :=
  let s := toString n
  String.mk (List.replicate (width - s.length) '0') ++ s

/-- Civil date from days since 1970-01-01 (proleptic Gregorian,
non-negative days): returns (year, month, day). -/
def civilFromDays (z : Nat) : Nat × Nat × Nat :=
  let z := z + 719468
  let era := z / 146097
  let doe := z % 146097
  let yoe := (doe - doe / 1460 + doe / 36524 - doe / 146096) / 365
  let y := yoe + era * 400
  let doy := doe - (365 * yoe + yoe / 4 - yoe / 100)
  let mp := (5 * doy + 2) / 153
  let d := doy - (153 * mp + 2) / 5 + 1
  let m := if mp < 10 then mp + 3 else mp - 9
  (if m ≤ 2 then y + 1 else y, m, d)

/-- `new Date(t).toISOString()` for epoch milliseconds `t ≥ 0`:
`YYYY-MM-DDTHH:mm:ss.sssZ` in UTC. -/
def toISOString (t : Nat) : String :=
  let ms := t % 1000
  let totalSec := t / 1000
  let s := totalSec % 60
  let totalMin := totalSec / 60
  let mi := totalMin % 60
  let totalHr := totalMin / 60
  let h := totalHr % 24
  let days := totalHr / 24
  let ymd := civilFromDays days
  padNum 4 ymd.1 ++ "-" ++ padNum 2 ymd.2.1 ++ "-" ++ padNum 2 ymd.2.2 ++
    "T" ++ padNum 2 h ++ ":" ++ padNum 2 mi ++ ":" ++ padNum 2 s ++
    "." ++ padNum 3 ms ++ "Z"

/-- `fetchLocation` (src/App.js lines 65-73): `try` to get the current
position, store it; on failure toast "Error fetching location". -/
def fetchLocation (env : Env) (w : World) : World :=
  let w := emit w Call.getCurrentPosition
  match env.positionResult with
  | some loc => { w with app := { w.app with location := some loc } }
  | none => toast w "Error fetching location"

/-- The `try`/`catch` block of `fetchNetworkInfo` (src/App.js lines
49-60): fetch the SSID, merge it into `wifiDetails`, query the connection
status, and only when connected fetch the signal level. Any rejected
await jumps to the single `catch`, which toasts
"Error fetching network info". -/
def networkTryBlock (env : Env) (w : World) : World :=
  let w := emit w Call.getCurrentWifiSSID
  match env.ssidResult with
  | none => toast w "Error fetching network info"
  | some ssid =>
    let w := { w with app := { w.app with
      wifiDetails := { w.app.wifiDetails with ssid := some ssid } } }
    let w := emit w Call.connectionStatus
    match env.connectionResult with
    | none => toast w "Error fetching network info"
    | some isConnected =>
      if isConnected then
        let w := emit w Call.getCurrentSignalStrength
        match env.levelResult with
        | none => toast w "Error fetching network info"
        | some level =>
          { w with app := { w.app with signalStrength := some level } }
      else w

/-- `fetchNetworkInfo` (src/App.js lines 48-62): the network try/catch
block, then unconditionally `fetchLocation()`. -/
def fetchNetworkInfo (env : Env) (w : World) : World :=
  fetchLocation env (networkTryBlock env w)

/-- `requestPermissions` (src/App.js lines 38-45): ask for foreground
location permission; on any status other than `'granted'` toast and
return, otherwise run `fetchNetworkInfo`. -/
def requestPermissions (env : Env) (w : World) : World :=
  let w := emit w Call.requestPermission
  if env.permissionStatus ≠ "granted" then
    toast w "Location permission is required to collect data."
  else
    fetchNetworkInfo env w

/-- `fetchSavedData` (src/App.js lines 102-111): `getDocs` on the
`networkDetails` collection and replace `savedData` wholesale; on failure
toast. -/
def fetchSavedData (env : Env) (w : World) : World :=
  let w := emit w Call.getDocs
  if env.getDocsFails then toast w "Error fetching saved data"
  else { w with app := { w.app with savedData := w.store.docs } }

/-- `fetchAvailableNetworks` (src/App.js lines 114-122):
`WifiManager.loadWifiList()` and replace `availableNetworks`; on failure
toast. -/
def fetchAvailableNetworks (env : Env) (w : World) : World :=
  let w := emit w Call.loadWifiList
  match env.wifiListResult with
  | none => toast w "Error fetching available networks"
  | some networks =>
    { w with app := { w.app with availableNetworks := networks } }

/-- JavaScript truthiness of `wifiDetails.ssid`: missing (`undefined`)
and the empty string are falsy. -/
def truthyOptStr : Option String → Bool
  | none => false
  | some s => s ≠ ""

/-- JavaScript truthiness of `signalStrength`: `null` and `0` are falsy. -/
def truthyOptInt : Option Int → Bool
  | none => false
  | some n => n ≠ 0

/-- The guard of `saveData` (src/App.js line 77), un-negated: the run
proceeds to the write exactly when
`wifiDetails.ssid && signalStrength && location` are all truthy. -/
def submittable (s : AppState) : Bool :=
  truthyOptStr s.wifiDetails.ssid && truthyOptInt s.signalStrength &&
    s.location.isSome

/-- `saveData` (src/App.js lines 76-99): if the truthiness guard fails,
toast and return with no write; otherwise build the `data` object, stamp
`timestamp: new Date().toISOString()`, `addDoc` it, and on success toast
and refresh via `fetchSavedData`; on write failure toast and keep
everything else unchanged. -/
def saveData (env : Env) (w : World) : World :=
  if !(truthyOptStr w.app.wifiDetails.ssid &&
       truthyOptInt w.app.signalStrength && w.app.location.isSome) then
    toast w "Please ensure all data (Wi-Fi, Signal Strength, Location) is available."
  else
    let data : SavedRecord :=
      { wifiDetails := w.app.wifiDetails
        signalStrength := w.app.signalStrength.getD 0
        location := w.app.location.getD { latitude := 0, longitude := 0 }
        timestamp := toISOString env.now }
    let w := emit w Call.addDoc
    if env.addDocFails then
      toast w "Error saving data to Firebase"
    else
      let w := { w with store := { docs := w.store.docs ++ [data] } }
      let w := toast w "Data saved successfully!"
      fetchSavedData env w

/-- The `useEffect(..., [])` body (src/App.js lines 31-35), run once per
component mount: `requestPermissions(); fetchSavedData();
fetchAvailableNetworks();`, modelled as sequential composition in call
order. -/
def mount (env : Env) (w : World) : World :=
  fetchAvailableNetworks env (fetchSavedData env (requestPermissions env w))

/-- A fresh start of the app: React re-creates every `useState` value
from its initializer at mount, so whatever component state a prior run
left behind (`prior`) is discarded; only the remote store survives. -/
def startApp (env : Env) (prior : AppState) (store : Store) : World :=
  mount env { app := initialAppState, store := store, calls := [] }

/-! ## A JSON view of the persisted record, for field-name claims -/

/-- Minimal JSON values, enough to render a persisted document. -/
inductive JValue where
  | str (s : String)
  | num (n : Int)
  | obj (fields : List (String × JValue))

/-- The JSON document `addDoc` sends: the literal keys of the `data`
object in `saveData` (`wifiDetails` with its optional `ssid` key,
`signalStrength`, `location` with `latitude`/`longitude`, `timestamp`). -/
def recordToJson (r : SavedRecord) : JValue :=
  JValue.obj
    [ ("wifiDetails", JValue.obj
        (match r.wifiDetails.ssid with
         | some s => [("ssid", JValue.str s)]
         | none => []))
    , ("signalStrength", JValue.num r.signalStrength)
    , ("location", JValue.obj
        [ ("latitude", JValue.num r.location.latitude)
        , ("longitude", JValue.num r.location.longitude) ])
    , ("timestamp", JValue.str r.timestamp) ]

/-- Top-level key list of a JSON object. -/
def topKeys : JValue → List String
  | JValue.obj fields => fields.map Prod.fst
  | _ => []

/-! ## Concrete test fixtures -/

/-- The world at component creation: fresh state, empty store, no calls. -/
def initialWorld : World :=
  { app := initialAppState, store := { docs := [] }, calls := [] }

/-- The all-success environment of Scenario C: permission granted,
network "NET1" at -54 dBm, position (37, -122). -/
def envGood : Env :=
  { permissionStatus := "granted"
    ssidResult := some "NET1"
    connectionResult := some true
    levelResult := some (-54)
    positionResult := some { latitude := 37, longitude := -122 }
    wifiListResult := some []
    addDocFails := false
    getDocsFails := false
    now := 0 }

/-- An environment in which the permission prompt resolves to denied. -/
def envDenied : Env :=
  { envGood with permissionStatus := "denied" }

/-- An environment in which the SSID query rejects while the connection
is up and a signal level would be available. -/
def envSsidFail : Env :=
  { envGood with ssidResult := none }

/-- Leftover component state from an aborted earlier run: stale
identifier, signal, and position. -/
def priorDirty : AppState :=
  { initialAppState with
      wifiDetails := { ssid := some "OLD" }
      signalStrength := some 99
      location := some { latitude := 9, longitude := 9 } }

/-- A session whose three fields are all present, but whose identifier
is the empty string (a falsy value in JavaScript). -/
def wEmptySsid : World :=
  { initialWorld with app :=
    { initialAppState with
        wifiDetails := { ssid := some "" }
        signalStrength := some 5
        location := some { latitude := 1, longitude := 2 } } }

/-- A session whose three fields are all present, but whose signal level
is 0 (a falsy value in JavaScript). -/
def wZeroSignal : World :=
  { initialWorld with app :=
    { initialAppState with
        wifiDetails := { ssid := some "NET1" }
        signalStrength := some 0
        location := some { latitude := 1, longitude := 2 } } }

/-! ## Helper lemmas -/

/-- `fetchLocation` touches only the `location` field and the call trace:
the network fields, the stored documents, and the toast log of a failed
fix never disturb `wifiDetails` or `signalStrength`. -/
theorem fetchLocation_frame (env : Env) (w : World) :
    (fetchLocation env w).app.wifiDetails = w.app.wifiDetails
    ∧ (fetchLocation env w).app.signalStrength = w.app.signalStrength
    ∧ (fetchLocation env w).calls = w.calls ++ [Call.getCurrentPosition] := by
  cases h : env.positionResult <;> simp [fetchLocation, h, emit, toast]

/-- When the SSID query succeeds, the network stage records it, whatever
happens to the connection-status and signal-level queries afterwards. -/
theorem networkTryBlock_keeps_ssid (env : Env) (w : World) (s : String)
    (hs : env.ssidResult = some s) :
    (networkTryBlock env w).app.wifiDetails.ssid = some s := by
  unfold networkTryBlock
  rcases hc : env.connectionResult with _ | b
  · simp [hs, hc, emit, toast]
  · cases b
    · simp [hs, hc, emit, toast]
    · rcases hl : env.levelResult with _ | lv <;> simp [hs, hc, hl, emit, toast]

/-- When the SSID query rejects, the whole `try` block aborts into its
`catch`: nothing else runs. -/
theorem networkTryBlock_ssid_failure (env : Env) (w : World)
    (h : env.ssidResult = none) :
    networkTryBlock env w =
      toast (emit w Call.getCurrentWifiSSID) "Error fetching network info" := by
  simp [networkTryBlock, h]

/-- Decomposition of a passing `saveData` guard: all three fields are
present and the identifier and level are truthy. -/
theorem submittable_decomp (s : AppState) (h : submittable s = true) :
    ∃ ssid lv loc, s.wifiDetails.ssid = some ssid ∧ ssid ≠ ""
      ∧ s.signalStrength = some lv ∧ lv ≠ 0 ∧ s.location = some loc := by
  rcases hs : s.wifiDetails.ssid with _ | ssid <;>
    rcases hl : s.signalStrength with _ | lv <;>
      rcases hp : s.location with _ | loc <;>
        simp [submittable, truthyOptStr, truthyOptInt, hs, hl, hp] at h ⊢
  exact ⟨h.1, h.2⟩

/-- Normal form of a successful write: the document appended to the
store, the refreshed cache, and the untouched session fields. -/
theorem saveData_success_store (env : Env) (w : World)
    (hsub : submittable w.app = true) (hw : env.addDocFails = false) :
    (saveData env w).store.docs = w.store.docs ++
      [{ wifiDetails := w.app.wifiDetails
         signalStrength := w.app.signalStrength.getD 0
         location := w.app.location.getD { latitude := 0, longitude := 0 }
         timestamp := toISOString env.now }]
    ∧ (env.getDocsFails = false →
        (saveData env w).app.savedData = (saveData env w).store.docs)
    ∧ (saveData env w).app.wifiDetails = w.app.wifiDetails
    ∧ (saveData env w).app.signalStrength = w.app.signalStrength
    ∧ (saveData env w).app.location = w.app.location := by
  unfold saveData
  simp only [submittable] at hsub
  simp only [hsub, Bool.not_true, Bool.false_eq_true, if_false, hw]
  cases hg : env.getDocsFails <;>
    simp [hg, fetchSavedData, emit, toast]

/-! ## Claims -/

/-- C1, counterexample: a session in which the network identifier, the
signal level, and the position are all present (the identifier being the
empty string), yet `saveData` performs no store write and leaves the
store unchanged — refuting "a store write if and only if all three are
present". -/
theorem saveData_present_not_written :
    wEmptySsid.app.wifiDetails.ssid.isSome = true
    ∧ wEmptySsid.app.signalStrength.isSome = true
    ∧ wEmptySsid.app.location.isSome = true
    ∧ Call.addDoc ∉ (saveData envGood wEmptySsid).calls
    ∧ (saveData envGood wEmptySsid).store = wEmptySsid.store := by decide

/-- C1, amended: `saveData` performs a store write if and only if the
three collected fields are all JavaScript-truthy (present, with a
non-empty identifier and a non-zero level); whenever that guard fails —
in particular whenever any of the three is absent — the run only shows
the incomplete-data toast: `addDoc` is never invoked and the session
fields, cache, and store are unchanged. -/
theorem saveData_write_iff_truthy (env : Env) (w : World) :
    (Call.addDoc ∈ (saveData env w).calls ↔
      Call.addDoc ∈ w.calls ∨ submittable w.app = true)
    ∧ (submittable w.app = false →
        saveData env w =
          toast w "Please ensure all data (Wi-Fi, Signal Strength, Location) is available.") := by
  unfold saveData
  cases h : (truthyOptStr w.app.wifiDetails.ssid &&
      truthyOptInt w.app.signalStrength && w.app.location.isSome) with
  | false =>
    constructor
    · simp [h, submittable, toast]
    · intro _; simp [h]
  | true =>
    constructor
    · cases hf : env.addDocFails <;>
        cases hg : env.getDocsFails <;>
          simp [h, hf, hg, submittable, emit, toast, fetchSavedData]
    · intro hc
      rw [submittable] at hc
      rw [h] at hc
      exact absurd hc (by simp)

/-- C1 witness for the amended theorem, at a session missing all fields:
the incomplete-data toast is the whole effect. -/
theorem saveData_write_iff_truthy_witness :
    saveData envGood initialWorld =
      toast initialWorld "Please ensure all data (Wi-Fi, Signal Strength, Location) is available." :=
  (saveData_write_iff_truthy envGood initialWorld).2 (by decide)

/-- C9: when the identifier is the empty string or the signal level is 0,
the field is present yet falsy, so `saveData` treats the observation as
not submittable: it fails with the incomplete-data toast and performs no
write. -/
theorem truthiness_rejects_empty_and_zero (env : Env) (w : World)
    (h : w.app.wifiDetails.ssid = some "" ∨ w.app.signalStrength = some (0 : Int)) :
    (w.app.wifiDetails.ssid.isSome = true ∨ w.app.signalStrength.isSome = true)
    ∧ submittable w.app = false
    ∧ saveData env w =
        toast w "Please ensure all data (Wi-Fi, Signal Strength, Location) is available." := by
  have hs : submittable w.app = false := by
    rcases h with h | h <;> simp [submittable, truthyOptStr, truthyOptInt, h]
  refine ⟨?_, hs, ?_⟩
  · rcases h with h | h
    · exact Or.inl (by simp [h])
    · exact Or.inr (by simp [h])
  · rw [submittable] at hs
    unfold saveData
    simp [hs]

/-- C9 witness: the zero-signal session is rejected with no write. -/
theorem truthiness_rejects_empty_and_zero_witness :
    (wZeroSignal.app.wifiDetails.ssid.isSome = true ∨
      wZeroSignal.app.signalStrength.isSome = true)
    ∧ submittable wZeroSignal.app = false
    ∧ saveData envGood wZeroSignal =
        toast wZeroSignal "Please ensure all data (Wi-Fi, Signal Strength, Location) is available." :=
  truthiness_rejects_empty_and_zero envGood wZeroSignal (Or.inr (by decide))

/-- C2, counterexample: in a run whose permission prompt resolves to
denied, the nearby-network listing (`WifiManager.loadWifiList`) is still
executed — the `useEffect` invokes `fetchAvailableNetworks()`
unconditionally, so a device-query operation runs without a grant. -/
theorem denied_run_still_queries_wifi_list :
    envDenied.permissionStatus ≠ "granted"
    ∧ Call.loadWifiList ∈ (mount envDenied initialWorld).calls := by decide

/-- C2, amended: on denial the pipeline device queries (network
identifier, connection status, signal level, position) are never
executed — the startup run's trace is exactly the permission prompt, the
store read, and the nearby-network listing; the latter two run
unconditionally, independent of the permission outcome. -/
theorem mount_queries_on_denial (env : Env) (st : Store)
    (h : ¬ env.permissionStatus = "granted") :
    (mount env { app := initialAppState, store := st, calls := [] }).calls
      = [Call.requestPermission, Call.getDocs, Call.loadWifiList] := by
  unfold mount requestPermissions fetchSavedData fetchAvailableNetworks
  cases hg : env.getDocsFails <;>
    rcases hn : env.wifiListResult with _ | nets <;>
      simp [h, hg, hn, emit, toast]

/-- C2 witness: the denied environment satisfies the amended theorem. -/
theorem mount_queries_on_denial_witness :
    (mount envDenied { app := initialAppState, store := { docs := [] }, calls := [] }).calls
      = [Call.requestPermission, Call.getDocs, Call.loadWifiList] :=
  mount_queries_on_denial envDenied { docs := [] } (by decide)

/-- C10: in a network-stage run where the SSID query succeeded and the
connection-status query returns `false`, the signal level is never
queried (the trace ends at the connection check), the `signalStrength`
field is left untouched (so it remains absent in a fresh run), no
error toast is shown — the `catch` never fires, so no network-error is
recorded — and the identifier retrieved in that same run is kept. -/
theorem disconnected_skips_signal_silently (env : Env) (w : World) (s : String)
    (hs : env.ssidResult = some s) (hc : env.connectionResult = some false) :
    (networkTryBlock env w).app.signalStrength = w.app.signalStrength
    ∧ (networkTryBlock env w).app.toasts = w.app.toasts
    ∧ (networkTryBlock env w).calls
        = w.calls ++ [Call.getCurrentWifiSSID, Call.connectionStatus]
    ∧ (networkTryBlock env w).app.wifiDetails.ssid = some s := by
  simp [networkTryBlock, hs, hc, emit, toast]

/-- C10 witness: concrete disconnected run from the fresh state. -/
theorem disconnected_skips_signal_silently_witness :
    (networkTryBlock { envGood with connectionResult := some false } initialWorld).app.signalStrength
        = initialWorld.app.signalStrength
    ∧ (networkTryBlock { envGood with connectionResult := some false } initialWorld).app.toasts
        = initialWorld.app.toasts
    ∧ (networkTryBlock { envGood with connectionResult := some false } initialWorld).calls
        = initialWorld.calls ++ [Call.getCurrentWifiSSID, Call.connectionStatus]
    ∧ (networkTryBlock { envGood with connectionResult := some false } initialWorld).app.wifiDetails.ssid
        = some "NET1" :=
  disconnected_skips_signal_silently _ initialWorld "NET1" (by decide) (by decide)

/-- C3, counterexample: permission granted, the SSID query rejects, the
connection is up and a signal level is available — yet the signal level
is never queried and stays absent, because the identifier failure aborts
the shared `try` block. This refutes "a failure in identifier retrieval
does not prevent or discard a successful signal-level retrieval". -/
theorem ssid_failure_prevents_signal_query :
    envSsidFail.connectionResult = some true
    ∧ envSsidFail.levelResult = some (-54)
    ∧ (fetchNetworkInfo envSsidFail initialWorld).app.signalStrength = none
    ∧ Call.getCurrentSignalStrength ∉ (fetchNetworkInfo envSsidFail initialWorld).calls := by
  decide

/-- C3, amended: the independence holds in one direction only. When the
identifier query succeeds, no later failure (connection status, signal
level, or position) discards it; but when the identifier query fails,
the signal level is never queried in that run — `signalStrength` is left
exactly as it was and the trace goes straight from the SSID query to the
position query. -/
theorem network_stage_failure_isolation (env : Env) (w : World) :
    (∀ s, env.ssidResult = some s →
        (fetchNetworkInfo env w).app.wifiDetails.ssid = some s)
    ∧ (env.ssidResult = none →
        (fetchNetworkInfo env w).app.signalStrength = w.app.signalStrength
        ∧ (fetchNetworkInfo env w).calls
            = w.calls ++ [Call.getCurrentWifiSSID, Call.getCurrentPosition]) := by
  constructor
  · intro s hs
    have h1 := networkTryBlock_keeps_ssid env w s hs
    have h2 := (fetchLocation_frame env (networkTryBlock env w)).1
    unfold fetchNetworkInfo
    rw [h2, h1]
  · intro hn
    have hb := networkTryBlock_ssid_failure env w hn
    have h2 := fetchLocation_frame env (networkTryBlock env w)
    unfold fetchNetworkInfo
    constructor
    · rw [h2.2.1, hb]; simp [toast, emit]
    · rw [h2.2.2, hb]; simp [toast, emit]

/-- C3 witness: a run whose signal-level query rejects keeps the
retrieved identifier. -/
theorem network_stage_failure_isolation_witness :
    (fetchNetworkInfo { envGood with levelResult := none } initialWorld).app.wifiDetails.ssid
      = some "NET1" :=
  (network_stage_failure_isolation { envGood with levelResult := none } initialWorld).1
    "NET1" (by decide)

/-- C4, counterexample: the document persisted by the all-success
scenario has the literal JSON keys `wifiDetails`, `signalStrength`,
`location`, `timestamp` — not the contract names `networkId`,
`signalLevel`, `position`, `capturedAt` claimed by the spec. -/
theorem saved_record_keys_not_contract :
    ((saveData envGood (mount envGood initialWorld)).store.docs.map
        fun d => topKeys (recordToJson d))
      = [["wifiDetails", "signalStrength", "location", "timestamp"]]
    ∧ ["wifiDetails", "signalStrength", "location", "timestamp"]
      ≠ ["networkId", "signalLevel", "position", "capturedAt"] := by
  decide

/-- C4, amended: every record written by a successful save has exactly
the shape `{ wifiDetails: { ssid: string }, signalStrength: integer,
location: { latitude, longitude }, timestamp: ISO-8601 string }`, with
the values taken from the session and the timestamp rendered from the
save-time clock; the spec's contract keys do not appear. -/
theorem saved_record_contract_shape (env : Env) (w : World)
    (hsub : submittable w.app = true) (hw : env.addDocFails = false) :
    ∃ d, (saveData env w).store.docs = w.store.docs ++ [d]
      ∧ topKeys (recordToJson d)
          = ["wifiDetails", "signalStrength", "location", "timestamp"]
      ∧ d.wifiDetails = w.app.wifiDetails
      ∧ some d.signalStrength = w.app.signalStrength
      ∧ some d.location = w.app.location
      ∧ d.timestamp = toISOString env.now := by
  obtain ⟨ssid, lv, loc, hs, hne, hl, hlz, hp⟩ := submittable_decomp _ hsub
  refine ⟨_, (saveData_success_store env w hsub hw).1, ?_, rfl, ?_, ?_, rfl⟩
  · simp [recordToJson, topKeys]
  · simp [hl]
  · simp [hp]

/-- C4 witness: the all-success scenario satisfies the amended shape. -/
theorem saved_record_contract_shape_witness :
    ∃ d, (saveData envGood (mount envGood initialWorld)).store.docs
        = (mount envGood initialWorld).store.docs ++ [d]
      ∧ topKeys (recordToJson d)
          = ["wifiDetails", "signalStrength", "location", "timestamp"]
      ∧ d.wifiDetails = (mount envGood initialWorld).app.wifiDetails
      ∧ some d.signalStrength = (mount envGood initialWorld).app.signalStrength
      ∧ some d.location = (mount envGood initialWorld).app.location
      ∧ d.timestamp = toISOString envGood.now :=
  saved_record_contract_shape envGood (mount envGood initialWorld)
    (by decide) (by decide)

/-- C5: the persisted document's timestamp is
`toISOString` of the clock read when `saveData` runs (the only `Date()`
read in the program), and the whole collection run is invariant under
the clock — changing `now` changes nothing about `mount` — so no
timestamp is taken at collection time; the in-progress session carries
no timestamp field at all. -/
theorem capturedAt_assigned_at_save (env : Env) (w w2 : World) (t u : Nat)
    (hsub : submittable w.app = true) (hw : env.addDocFails = false) :
    (∃ d, (saveData env w).store.docs = w.store.docs ++ [d]
        ∧ d.timestamp = toISOString env.now)
    ∧ mount { env with now := t } w2 = mount { env with now := u } w2 := by
  refine ⟨⟨_, (saveData_success_store env w hsub hw).1, rfl⟩, ?_⟩
  rfl

/-- C5 witness: Scenario C, saving at clock 0. -/
theorem capturedAt_assigned_at_save_witness :
    (∃ d, (saveData envGood (mount envGood initialWorld)).store.docs
        = (mount envGood initialWorld).store.docs ++ [d]
        ∧ d.timestamp = toISOString envGood.now)
    ∧ mount { envGood with now := 3 } initialWorld
        = mount { envGood with now := 7 } initialWorld :=
  capturedAt_assigned_at_save envGood (mount envGood initialWorld) initialWorld 3 7
    (by decide) (by decide)

/-- C6: when the store write of a submittable observation fails, the
session is preserved unchanged — identifier, level, position, the cached
list, and the store itself are identical before and after, and the
session is still submittable, so save can be retried without
re-collecting. -/
theorem failed_write_preserves_session (env : Env) (w : World)
    (hsub : submittable w.app = true) (hf : env.addDocFails = true) :
    (saveData env w).app.wifiDetails = w.app.wifiDetails
    ∧ (saveData env w).app.signalStrength = w.app.signalStrength
    ∧ (saveData env w).app.location = w.app.location
    ∧ (saveData env w).app.savedData = w.app.savedData
    ∧ (saveData env w).store = w.store
    ∧ submittable (saveData env w).app = true := by
  have hg : submittable w.app = true := hsub
  rw [submittable] at hg
  unfold saveData
  simp [hg, hf, emit, toast, submittable] at hsub ⊢

/-- C6 witness: a failing store write under Scenario C's session. -/
theorem failed_write_preserves_session_witness :
    (saveData { envGood with addDocFails := true } (mount envGood initialWorld)).app.wifiDetails
        = (mount envGood initialWorld).app.wifiDetails
    ∧ (saveData { envGood with addDocFails := true } (mount envGood initialWorld)).app.signalStrength
        = (mount envGood initialWorld).app.signalStrength
    ∧ (saveData { envGood with addDocFails := true } (mount envGood initialWorld)).app.location
        = (mount envGood initialWorld).app.location
    ∧ (saveData { envGood with addDocFails := true } (mount envGood initialWorld)).app.savedData
        = (mount envGood initialWorld).app.savedData
    ∧ (saveData { envGood with addDocFails := true } (mount envGood initialWorld)).store
        = (mount envGood initialWorld).store
    ∧ submittable (saveData { envGood with addDocFails := true } (mount envGood initialWorld)).app
        = true :=
  failed_write_preserves_session { envGood with addDocFails := true }
    (mount envGood initialWorld) (by decide) (by decide)

/-- C7: a fresh start discards whatever component state a prior run left
(React re-creates each `useState` value from its initializer at mount):
the run is independent of the prior state, begins with every session
field absent, and any field present afterwards was produced by this
run's own provider results. -/
theorem start_fresh_session (env : Env) (prior prior2 : AppState) (st : Store) :
    startApp env prior st = startApp env prior2 st
    ∧ initialAppState.wifiDetails.ssid = none
    ∧ initialAppState.signalStrength = none
    ∧ initialAppState.location = none
    ∧ (∀ s, (startApp env prior st).app.wifiDetails.ssid = some s →
        env.permissionStatus = "granted" ∧ env.ssidResult = some s)
    ∧ (∀ v, (startApp env prior st).app.signalStrength = some v →
        env.levelResult = some v)
    ∧ (∀ c, (startApp env prior st).app.location = some c →
        env.positionResult = some c) := by
  refine ⟨rfl, rfl, rfl, rfl, ?_⟩
  unfold startApp mount requestPermissions fetchNetworkInfo networkTryBlock
    fetchLocation fetchSavedData fetchAvailableNetworks
  by_cases hperm : env.permissionStatus = "granted" <;>
    rcases hss : env.ssidResult with _ | s0 <;>
      rcases hc : env.connectionResult with _ | b <;>
        (try cases b) <;>
          rcases hl : env.levelResult with _ | lv <;>
            rcases hp : env.positionResult with _ | pos <;>
              rcases hn : env.wifiListResult with _ | nets <;>
                cases hg : env.getDocsFails <;>
                  simp [hperm, hss, hc, hl, hp, hn, hg, emit, toast, initialAppState]

/-- C7 witness: after a successful fresh run following a dirty aborted
run, the present identifier is the one this run's provider returned. -/
theorem start_fresh_session_witness :
    envGood.permissionStatus = "granted" ∧ envGood.ssidResult = some "NET1" :=
  (start_fresh_session envGood priorDirty initialAppState { docs := [] }).2.2.2.2.1
    "NET1" (by decide)

/-- C8: after a successful save, the refresh triggered inside `saveData`
replaces the cached list with the store's list, which ends with a
document whose fields match the just-saved observation. The store is
modelled from the spec's ObservationStore contract (§4.4): `create`
appends and `listAll` returns every document. -/
theorem save_then_refresh_roundtrip (env : Env) (w : World)
    (hsub : submittable w.app = true) (hw : env.addDocFails = false)
    (hg : env.getDocsFails = false) :
    ∃ d, (saveData env w).app.savedData = w.store.docs ++ [d]
      ∧ d ∈ (saveData env w).app.savedData
      ∧ d.wifiDetails = w.app.wifiDetails
      ∧ some d.signalStrength = w.app.signalStrength
      ∧ some d.location = w.app.location
      ∧ d.timestamp = toISOString env.now := by
  obtain ⟨hstore, hsaved, _⟩ := saveData_success_store env w hsub hw
  obtain ⟨ssid, lv, loc, hs, hne, hl, hlz, hp⟩ := submittable_decomp _ hsub
  refine ⟨{ wifiDetails := w.app.wifiDetails
            signalStrength := w.app.signalStrength.getD 0
            location := w.app.location.getD { latitude := 0, longitude := 0 }
            timestamp := toISOString env.now }, ?_, ?_, rfl, ?_, ?_, rfl⟩
  · rw [hsaved hg, hstore]
  · rw [hsaved hg, hstore]; simp
  · simp [hl]
  · simp [hp]

/-- C8 witness: Scenario C round-trips through the store. -/
theorem save_then_refresh_roundtrip_witness :
    ∃ d, (saveData envGood (mount envGood initialWorld)).app.savedData
        = (mount envGood initialWorld).store.docs ++ [d]
      ∧ d ∈ (saveData envGood (mount envGood initialWorld)).app.savedData
      ∧ d.wifiDetails = (mount envGood initialWorld).app.wifiDetails
      ∧ some d.signalStrength = (mount envGood initialWorld).app.signalStrength
      ∧ some d.location = (mount envGood initialWorld).app.location
      ∧ d.timestamp = toISOString envGood.now :=
  save_then_refresh_roundtrip envGood (mount envGood initialWorld)
    (by decide) (by decide) (by decide)
